import Mathlib

/-!
# Verification of the Hephix backend aggregation core

A shallow embedding, in Lean 4, of the product-search aggregation backend
(`src/services/depo_store.py`, `src/services/darel_store.py`,
`src/services/graphql_service.py`, `src/routers/chat.py`), together with
theorems settling the specification claims about it.

Modelling conventions:
* JSON values (the results of Python's `json` parsing / `response.json()`)
  are modelled by the inductive `JVal`; JSON numbers are modelled as
  integers (no claim depends on fractional arithmetic — prices travel
  through the code as opaque display values).
* Python truthiness (`if x:`, `x or y`) is modelled by `JVal.truthy` /
  `pyOr`; `dict.get` and indexing that can raise (`AttributeError`,
  `TypeError`, `ValueError` from `.json()`) are modelled in the
  `Except PyErr` monad.
* Wall-clock time (`time.time()`) is modelled as a natural number of
  seconds; upstream HTTP traffic is injected as explicit environment
  values and every request issued by the embedded code is recorded in an
  explicit trace, so that "no upstream call" claims are statable.
-/

namespace Hephix

/-- Python-level exceptions that the embedded code can raise. -/
inductive PyErr where
  | typeError
  | attributeError
  | valueError
  deriving DecidableEq, Repr

/-- JSON values as produced by Python's `json.loads` / `Response.json()`.
Numbers are modelled as integers (see the module docstring). -/
inductive JVal where
  | null
  | bool (b : Bool)
  | num (n : Int)
  | str (s : String)
  | arr (elems : List JVal)
  | obj (fields : List (String × JVal))

/-- Python truthiness of a JSON value: `None`, `False`, `0`, `""`, `[]`
and `{}` are falsy, everything else truthy. -/
def JVal.truthy : JVal → Bool
  | .null => false
  | .bool b => b
  | .num n => n != 0
  | .str s => s != ""
  | .arr xs => !xs.isEmpty
  | .obj fs => !fs.isEmpty

mutual

/-- Python `==` on JSON values (including the `bool`/`int` coercion
`True == 1`, `False == 0`). -/
def JVal.pyEq : JVal → JVal → Bool
  | .null, .null => true
  | .bool a, .bool b => a == b
  | .bool a, .num n => (if a then (1 : Int) else 0) == n
  | .num n, .bool a => n == (if a then (1 : Int) else 0)
  | .num a, .num b => a == b
  | .str a, .str b => a == b
  | .arr a, .arr b => JVal.pyEqList a b
  | .obj a, .obj b => JVal.pyEqObj a b
  | _, _ => false

/-- Elementwise Python `==` on JSON arrays. -/
def JVal.pyEqList : List JVal → List JVal → Bool
  | [], [] => true
  | a :: as', b :: bs' => JVal.pyEq a b && JVal.pyEqList as' bs'
  | _, _ => false

/-- Python `==` on JSON objects: same keys in the same order with equal
values (our embedded dicts never repeat keys, and the code never compares
objects whose key order differs, so ordered comparison is adequate). -/
def JVal.pyEqObj : List (String × JVal) → List (String × JVal) → Bool
  | [], [] => true
  | (k, a) :: as', (l, b) :: bs' => k == l && JVal.pyEq a b && JVal.pyEqObj as' bs'
  | _, _ => false

end

/-- First binding of a key in a field list (Python dict lookup). -/
def jLookup (fields : List (String × JVal)) (key : String) : Option JVal :=
  match fields with
  | [] => none
  | (k, v) :: rest => if k == key then some v else jLookup rest key

/-- `d.get(key)` on a field list: `None` (`JVal.null`) when absent. -/
def dGet (fields : List (String × JVal)) (key : String) : JVal :=
  (jLookup fields key).getD .null

/-- `d.get(key, default)` on a field list. -/
def dGetD (fields : List (String × JVal)) (key : String) (dflt : JVal) : JVal :=
  (jLookup fields key).getD dflt

/-- `key in d` on a field list. -/
def hasKey (fields : List (String × JVal)) (key : String) : Bool :=
  (jLookup fields key).isSome

/-- The field of a JSON object under a key (`null` off objects); used to
state properties of emitted records. -/
def JVal.field (v : JVal) (key : String) : JVal :=
  match v with
  | .obj fs => dGet fs key
  | _ => .null

/-- `v.get(key)` where `v` is an arbitrary value: raises `AttributeError`
unless `v` is a dict (exactly as Python does). -/
def JVal.pyGet (v : JVal) (key : String) : Except PyErr JVal :=
  match v with
  | .obj fs => .ok (dGet fs key)
  | _ => .error .attributeError

/-- `v.get(key, default)` where `v` is an arbitrary value. -/
def JVal.pyGetD (v : JVal) (key : String) (dflt : JVal) : Except PyErr JVal :=
  match v with
  | .obj fs => .ok (dGetD fs key dflt)
  | _ => .error .attributeError

/-- Python `a or b` on JSON values: `a` if truthy, otherwise `b`
(the second operand is returned unchecked, as in Python). -/
def pyOr (a b : JVal) : JVal :=
  if a.truthy then a else b

/-- Lazy Python `or` over fallible operands: the right operand is only
evaluated (and can only raise) when the left one is falsy. -/
def pyOrE (a : Except PyErr JVal) (b : Unit → Except PyErr JVal) : Except PyErr JVal :=
  match a with
  | .error e => .error e
  | .ok v => if v.truthy then .ok v else b ()

/-- Whether `needle` occurs as a contiguous sublist of `hay`. -/
def segOccursIn [BEq α] (needle : List α) : List α → Bool
  | [] => needle.isEmpty
  | x :: rest => needle.isPrefixOf (x :: rest) || segOccursIn needle rest

/-- Python substring test `needle in hay` on strings. -/
def strHasSub (needle hay : String) : Bool :=
  segOccursIn needle.toList hay.toList

/-- Python membership `needle in container` for a string needle: key test
on dicts, element test on lists, substring test on strings, `TypeError`
on numbers, booleans and `None`. -/
def pyIn (needle : String) (container : JVal) : Except PyErr Bool :=
  match container with
  | .obj fs => .ok (hasKey fs needle)
  | .arr xs => .ok (xs.any (fun x => JVal.pyEq x (.str needle)))
  | .str s => .ok (strHasSub needle s)
  | _ => .error .typeError

/-- Python slicing `xs[:n]`: for nonnegative `n` the first `n` elements,
for negative `n` everything but the last `-n` elements. -/
def pySliceTo (n : Int) (xs : List α) : List α :=
  if 0 ≤ n then xs.take n.toNat else xs.take ((xs.length : Int) + n).toNat

/-- Python `str.strip()`: drop leading and trailing whitespace
(implemented over the character list so that it evaluates by reduction). -/
def pyStrip (s : String) : String :=
  ⟨((s.data.dropWhile Char.isWhitespace).reverse.dropWhile Char.isWhitespace).reverse⟩

/-- Python `str.lower()` (over the character list; the code only ever
lowercases ASCII keywords and page text scanned for ASCII words). -/
def pyLower (s : String) : String :=
  ⟨s.data.map Char.toLower⟩

/-- Truthiness of a Python string-or-None value (`None` and `""` falsy). -/
def optStrTruthy : Option String → Bool
  | none => false
  | some s => s != ""

/-- Python `a or b` where both operands are string-or-None values. -/
def pyOrS (a b : Option String) : Option String :=
  if optStrTruthy a then a else b

/-! ## `src/services/graphql_service.py` — `execute_graphql_request`

The upstream conversation is injected as a list of `GqlResponse`s: the
n-th element is the response the n-th POST would receive; an empty list
models the transport raising `httpx.RequestError` (no response at all).
The embedding returns the call's outcome together with the number of
POST requests it issued, so that the single-attempt property is statable. -/

/-- One HTTP response to the GraphQL POST: its status code and the result
of `response.json()` (`none` when the body is not valid JSON). -/
structure GqlResponse where
  status : Nat
  jsonBody : Option JVal

/-- Outcome of `execute_graphql_request`: either the parsed payload, a
`GraphQLRequestError` carrying its message, or an uncaught Python error. -/
inductive GqlOutcome where
  | payload (data : JVal)
  | gqlError (msg : String)
  | pyError (e : PyErr)

/-- `httpx.Response.is_success`: a 2xx status code.  `raise_for_status`
raises `HTTPStatusError` exactly when this is false. -/
def is2xx (status : Nat) : Bool :=
  200 ≤ status && status ≤ 299

/-- Shallow embedding of `execute_graphql_request`
(src/services/graphql_service.py).  Returns the outcome and the number of
POST requests issued.  `variables`, headers and the timeout only shape the
outgoing request, never the response handling, and are omitted. -/
def executeGraphqlRequest (endpoint query : String) (responses : List GqlResponse) :
    GqlOutcome × Nat :=
  if pyStrip endpoint == "" then
    (.gqlError "GraphQL endpoint cannot be empty.", 0)
  else if pyStrip query == "" then
    (.gqlError "GraphQL query cannot be empty.", 0)
  else
    match responses with
    | [] => (.gqlError "GraphQL request failed due to a network error.", 1)
    | r :: _ =>
      if !is2xx r.status then
        (.gqlError ("GraphQL request failed with status " ++ toString r.status ++ "."), 1)
      else
        match r.jsonBody with
        | none => (.gqlError "GraphQL response was not valid JSON.", 1)
        | some data =>
          match pyIn "errors" data with
          | .error e => (.pyError e, 1)
          | .ok true => (.gqlError "GraphQL response contained errors.", 1)
          | .ok false => (.payload data, 1)

/-! ## `src/services/darel_store.py` — session cookie cache

`_get_darel_cookies` reads and updates the module-level dict
`_darel_cookie_cache = {"expires_at": 0, "cookies": None}`.  The cache is
modelled as an explicit `CookieCache` value threaded through the call;
the headless-browser acquisition (playwright import, launch, navigation,
`context.cookies()`) is injected as an `Acquisition` outcome.  The call
returns its result, the updated cache, and how many acquisition attempts
it performed. -/

/-- One browser cookie as returned by playwright's `context.cookies()`
(a dict; the fields the code reads, each possibly absent). -/
structure Cookie where
  name : Option String
  value : Option String
  domain : Option String
  path : Option String
  deriving DecidableEq

/-- `DAREL_COOKIE_TTL_SECONDS = 30 * 60`. -/
def DAREL_COOKIE_TTL_SECONDS : Nat := 30 * 60

/-- The module-level `_darel_cookie_cache`: `cookies` is `None` initially
(`none`) or the last successfully acquired list; `expires_at` starts at 0. -/
structure CookieCache where
  cookies : Option (List Cookie)
  expiresAt : Nat
  deriving DecidableEq

/-- The initial cache value `{"expires_at": 0, "cookies": None}`. -/
def initialCookieCache : CookieCache := ⟨none, 0⟩

/-- Outcome of one acquisition attempt: the playwright import raising,
the browser launch / navigation raising, or the browser returning a
cookie list (possibly empty). -/
inductive Acquisition where
  | importError
  | browserError
  | got (cs : List Cookie)
  deriving DecidableEq

/-- Whether an acquisition outcome is a failing path of
`_get_darel_cookies` (import error, browser error, or empty cookie list). -/
def Acquisition.fails : Acquisition → Bool
  | .importError => true
  | .browserError => true
  | .got cs => cs.isEmpty

/-- The cache-hit test `if cached and expires_at > now:`: the cached value
must be truthy (a non-empty list) and the expiry strictly in the future. -/
def cacheHit (cache : CookieCache) (now : Nat) : Bool :=
  match cache.cookies with
  | some (_ :: _) => decide (cache.expiresAt > now)
  | _ => false

/-- Result of one `_get_darel_cookies` call. -/
structure CookieCallOut where
  result : Option (List Cookie)
  cache : CookieCache
  acquisitions : Nat
  deriving DecidableEq

/-- Shallow embedding of `_get_darel_cookies`
(src/services/darel_store.py): serve the cached cookies on a cache hit,
otherwise perform one acquisition; every failing acquisition path returns
`None` and leaves the cache untouched, a successful one stores the new
cookies with expiry `now + DAREL_COOKIE_TTL_SECONDS`. -/
def getDarelCookies (cache : CookieCache) (now : Nat) (acq : Acquisition) :
    CookieCallOut :=
  if cacheHit cache now then
    ⟨cache.cookies, cache, 0⟩
  else
    match acq with
    | .importError => ⟨none, cache, 1⟩
    | .browserError => ⟨none, cache, 1⟩
    | .got cs =>
      if cs.isEmpty then ⟨none, cache, 1⟩
      else ⟨some cs, ⟨some cs, now + DAREL_COOKIE_TTL_SECONDS⟩, 1⟩

/-! ## `src/services/darel_store.py` — `_darel_search_with_error`

The upstream traffic is injected through `DarelEnv` (the cookies the
session manager returned, and the status/body of the search POST; the
priming GET's response is read by nothing and carries no data).  The
embedding records every HTTP request the call issues. -/

/-- `DAREL_SEARCH_URL`. -/
def DAREL_SEARCH_URL : String := "https://darel.lv/en/module/iqitsearch/searchiqit"

/-- `DAREL_BASE_URL`. -/
def DAREL_BASE_URL : String := "https://darel.lv/"

/-- One HTTP request issued by the embedded code. -/
inductive HttpRequest where
  | get (url : String)
  | post (url : String) (data : List (String × String))
  deriving DecidableEq

/-- Injected upstream behaviour for one `_darel_search_with_error` call:
the session manager's answer and the search POST's response
(`postBody = none` models a body that `r.json()` cannot parse). -/
structure DarelEnv where
  cookies : Option (List Cookie)
  postStatus : Nat
  postBody : Option JVal

/-- Result of one `_darel_search_with_error` call: the trace of issued
HTTP requests, and either `(results, error_message)` or an uncaught
Python error. -/
structure DarelSearchOut where
  requests : List HttpRequest
  result : Except PyErr (List JVal × Option String)

/-- The thumbnail probe of the compact loop: `by_size` sizes
`home_default`, `medium_default`, `small_default` first, then the flat
`cover` sizes `medium`, `small`, `large`; Python `or` returns the first
truthy URL, or the last (falsy) value when none is truthy. -/
def darelThumb (cover bySize : JVal) : Except PyErr JVal :=
  pyOrE (do (← bySize.pyGetD "home_default" (.obj [])).pyGet "url") (fun _ =>
  pyOrE (do (← bySize.pyGetD "medium_default" (.obj [])).pyGet "url") (fun _ =>
  pyOrE (do (← bySize.pyGetD "small_default" (.obj [])).pyGet "url") (fun _ =>
  pyOrE (do (← cover.pyGetD "medium" (.obj [])).pyGet "url") (fun _ =>
  pyOrE (do (← cover.pyGetD "small" (.obj [])).pyGet "url") (fun _ =>
  do (← cover.pyGetD "large" (.obj [])).pyGet "url")))))

/-- The compact record built for one product dict `p` of the `products`
array: every field is `p.get(...)` pass-through (`url` falls back to
`link`); the thumbnail comes from `darelThumb`. -/
def darelCompact (fs : List (String × JVal)) : Except PyErr JVal := do
  let cover := pyOr (dGet fs "cover") (.obj [])
  let bySize := pyOr (← cover.pyGet "bySize") (.obj [])
  let thumb ← darelThumb cover bySize
  .ok (.obj [
    ("id_product", dGet fs "id_product"),
    ("name", dGet fs "name"),
    ("price", dGet fs "price"),
    ("url", pyOr (dGet fs "url") (dGet fs "link")),
    ("reference", dGet fs "reference"),
    ("manufacturer_name", dGet fs "manufacturer_name"),
    ("category_name", dGet fs "category_name"),
    ("thumbnail", thumb)])

/-- The compact-building loop over the `products` array: non-dict entries
are skipped (`if not isinstance(p, dict): continue`). -/
def darelCompactList : List JVal → Except PyErr (List JVal)
  | [] => .ok []
  | p :: rest =>
    match p with
    | .obj fs => do
      let c ← darelCompact fs
      let r ← darelCompactList rest
      .ok (c :: r)
    | _ => darelCompactList rest

/-- `payload.get("products", [])` followed by the `for p in products`
iteration: iterating a non-iterable (`None`, a number, a boolean) raises
`TypeError`; iterating a string yields its characters and a dict its keys
(none of which are dicts, so the compact list comes out empty). -/
def darelProducts (payload : JVal) : Except PyErr (List JVal) :=
  match payload with
  | .obj fs =>
    match dGetD fs "products" (.arr []) with
    | .arr xs => .ok xs
    | .str s => .ok (s.toList.map (fun c => .str (String.mk [c])))
    | .obj gs => .ok (gs.map (fun kv => .str kv.1))
    | _ => .error .typeError
  | _ => .error .attributeError

/-- The form data of the search POST:
`{"s": query, "resultsPerPage": str(results_per_page), "ajax": "true"}`. -/
def darelPostData (query : String) (resultsPerPage : Int) : List (String × String) :=
  [("s", query), ("resultsPerPage", toString resultsPerPage), ("ajax", "true")]

/-- Shallow embedding of `_darel_search_with_error`
(src/services/darel_store.py).  The call always issues the priming GET to
the homepage and the search POST (in that order); a non-2xx POST status
is caught and converted into `([], advisory message)`; on 2xx the JSON
payload's `products` array is compacted. -/
def darelSearchWithError (query : String) (resultsPerPage : Int) (env : DarelEnv) :
    DarelSearchOut :=
  let requests := [HttpRequest.get DAREL_BASE_URL,
                   HttpRequest.post DAREL_SEARCH_URL (darelPostData query resultsPerPage)]
  if !is2xx env.postStatus then
    ⟨requests, .ok ([], some ("Darel search failed with HTTP " ++ toString env.postStatus ++ "."))⟩
  else
    match env.postBody with
    | none => ⟨requests, .error .valueError⟩
    | some payload =>
      ⟨requests,
        do
          let products ← darelProducts payload
          let compact ← darelCompactList products
          .ok (compact, none)⟩

/-- `darel_search`: the MCP tool wrapper, dropping the error message. -/
def darelSearch (query : String) (resultsPerPage : Int) (env : DarelEnv) :
    Except PyErr (List JVal) :=
  (darelSearchWithError query resultsPerPage env).result.map Prod.fst

/-! ## `src/routers/chat.py` — the `GET /darel` endpoint -/

/-- Shallow embedding of the `darel_get` route handler: default limit 10,
empty results map to `{"results": []}`, otherwise the results are trimmed
with `results[:max_results]` (the requested limit, not clamped). -/
def darelGet (q : String) (limit : Option Int) (env : DarelEnv) :
    Except PyErr (List JVal) := do
  let maxResults := limit.getD 10
  let results ← darelSearch q maxResults env
  if results.isEmpty then .ok []
  else .ok (pySliceTo maxResults results)

/-! ## `src/services/depo_store.py` — `extract_product_info`

The HTML-heuristic scraping helpers are, per the spec (§1), a best-effort
capability, not algorithmic core.  They are embedded at the boundary the
code itself uses: BeautifulSoup queries on one candidate product element
become fields of `BSElem` (the answers the soup would give, in the order
the code asks), and the Python standard-library helpers (`str()`,
`urljoin`, `quote`, the two numeric-price regexes) become the
uninterpreted functions in `PyOracles`.  The name-resolution cascade, the
price cascade, the emission guard and the deduplication pass — the logic
the claims are about — are translated verbatim. -/

/-- A Python dict with string keys, in insertion order. -/
abbrev PyDict := List (String × JVal)

/-- Uninterpreted Python standard-library helpers used by the depo code:
`pyStr` is `str()`; `urljoin`/`quote` are from `urllib.parse`;
`priceNum t` is group 1 of
`re.search(r'([\d,]+\.?\d*)', t.replace(',', '.').replace(' ', ''))`;
`pricePat t` is the truthy group of
`re.search(r'€\s*([\d,]+\.?\d*)|([\d,]+\.?\d*)\s*€', t)` (or `none`). -/
structure PyOracles where
  pyStr : JVal → String
  urljoin : String → String → String
  quote : String → String
  priceNum : String → Option String
  pricePat : String → Option String

/-- `DEPO_BASE_URL`. -/
def DEPO_BASE_URL : String := "https://online.depo.lv"

/-- `DEPO_SEARCH_URL`. -/
def DEPO_SEARCH_URL : String := DEPO_BASE_URL ++ "/search"

/-- One candidate product element, abstracted to the answers the
BeautifulSoup queries in the element loop of `extract_product_info` would
return: the three name data-attributes, the stripped texts of the first
`h1`–`h4` (in that order), the stripped texts of the seven name
selectors, the first `a[href]` link (text, href), the two price
data-attributes, the stripped texts of the seven price selectors, and the
element's full text. -/
structure BSElem where
  dataName : Option String
  dataProductName : Option String
  dataTitle : Option String
  headings : List (Option String)
  selNames : List (Option String)
  link : Option (String × String)
  dataPrice : Option String
  dataProductPrice : Option String
  selPrices : List (Option String)
  fullText : String

/-- The shared loop shape of name strategies 2 and 3: each found element
assigns `name` unconditionally, and the loop breaks only when the
assigned text is truthy and longer than 3 characters. -/
def scanNameLoop : Option String → List (Option String) → Option String
  | nm, [] => nm
  | nm, none :: rest => scanNameLoop nm rest
  | _, some t :: rest =>
    if t != "" && t.length > 3 then some t else scanNameLoop (some t) rest

/-- The name-resolution cascade of the element loop: data attributes,
then headings, then the common name selectors, then the link text (which
must be 4–199 characters long). -/
def elemName (e : BSElem) : Option String :=
  let n1 := pyOrS (pyOrS e.dataName e.dataProductName) e.dataTitle
  let n2 := if optStrTruthy n1 then n1 else scanNameLoop n1 e.headings
  let n3 := if optStrTruthy n2 then n2 else scanNameLoop n2 e.selNames
  if optStrTruthy n3 then n3
  else
    match e.link with
    | some (t, _) => if t != "" && t.length > 3 && t.length < 200 then some t else n3
    | none => n3

/-- The price-selector loop: `price` is only assigned (with a `€` prefix)
when the numeric regex matches, and the loop then breaks at once. -/
def scanPriceLoop (f : String → Option String) : Option String → List (Option String) → Option String
  | pr, [] => pr
  | pr, none :: rest => scanPriceLoop f pr rest
  | pr, some t :: rest =>
    match f t with
    | some g => some ("€" ++ g)
    | none => scanPriceLoop f pr rest

/-- The price-resolution cascade of the element loop: data attributes
(verbatim), then the price selectors, then the page-text price pattern
(with `,` replaced by `.`). -/
def elemPrice (orc : PyOracles) (e : BSElem) : Option String :=
  let p1 := pyOrS e.dataPrice e.dataProductPrice
  let p2 := if optStrTruthy p1 then p1 else scanPriceLoop orc.priceNum p1 e.selPrices
  if optStrTruthy p2 then p2
  else
    match orc.pricePat e.fullText with
    | some v => some ("€" ++ (v.replace "," "."))
    | none => p2

/-- Processing of one candidate element: the product dict gets a stripped
`name` when one was resolved truthy, a joined `url` when the first link
has a non-empty href, and — only inside the emission guard
`if product.get('name'):` — a `price` defaulting to the
"Price not available" sentinel.  A falsy (missing or
whitespace-stripped-to-empty) name drops the element. -/
def processElem (orc : PyOracles) (e : BSElem) : Option PyDict :=
  let nm := elemName e
  let stored := pyStrip (nm.getD "")
  let nameField : PyDict := if optStrTruthy nm then [("name", .str stored)] else []
  let urlField : PyDict :=
    match e.link with
    | some (_, href) =>
      if href != "" then [("url", .str (orc.urljoin DEPO_BASE_URL href))] else []
    | none => []
  let price := elemPrice orc e
  if optStrTruthy nm && stored != "" then
    some (nameField ++ urlField ++
      [("price", .str (if optStrTruthy price then price.getD "" else "Price not available"))])
  else none

/-- `item_data['offers']['price']`-style indexing: only dicts support
string indexing, everything else raises `TypeError`. -/
def pyIndex (v : JVal) (key : String) : Except PyErr JVal :=
  match v with
  | .obj fs => .ok (dGet fs key)
  | _ => .error .typeError

/-- Build of one JSON-LD product: `name` and `url` are copied verbatim
when present; `price` is added when `offers` is present and Python
membership finds `price` in it (the membership test itself can raise, and
the indexing of a non-dict `offers` can raise — both bubble up into the
script's bare `except`). -/
def ldBuildProduct (orc : PyOracles) (dfs : PyDict) : Except PyErr PyDict := do
  let p1 : PyDict := if hasKey dfs "name" then [("name", dGet dfs "name")] else []
  let p2 : PyDict := if hasKey dfs "url" then [("url", dGet dfs "url")] else []
  if hasKey dfs "offers" then
    let inPrice ← pyIn "price" (dGet dfs "offers")
    if inPrice then do
      let pv ← pyIndex (dGet dfs "offers") "price"
      .ok (p1 ++ p2 ++ [("price", .str ("€" ++ orc.pyStr pv))])
    else .ok (p1 ++ p2)
  else .ok (p1 ++ p2)

/-- The `for item in data['itemListElement']` loop: non-dict items and
items without an `item` key (or a non-dict `item` value) are skipped;
each built product is appended only when its `name` is truthy; a raised
error aborts the rest of this script (the bare `except: pass`), keeping
the products appended so far. -/
def ldItemsAux (orc : PyOracles) : List JVal → List PyDict
  | [] => []
  | item :: rest =>
    match item with
    | .obj ifs =>
      if hasKey ifs "item" then
        match dGet ifs "item" with
        | .obj dfs =>
          match ldBuildProduct orc dfs with
          | .ok p => (if (dGet p "name").truthy then [p] else []) ++ ldItemsAux orc rest
          | .error _ => []
        | _ => ldItemsAux orc rest
      else ldItemsAux orc rest
    | _ => ldItemsAux orc rest

/-- Strategy 1 of `extract_product_info` for one JSON-LD script: a parsed
dict with `@type == 'ItemList'` and an `itemListElement` key contributes
its item products; parse failures and every raised error are swallowed.
Iterating a string yields characters and a dict its keys (no dicts, so no
products); iterating `None`, a number or a boolean raises (swallowed). -/
def ldScript (orc : PyOracles) (script : Option JVal) : List PyDict :=
  match script with
  | none => []
  | some data =>
    match data with
    | .obj fs =>
      if JVal.pyEq (dGet fs "@type") (.str "ItemList") && hasKey fs "itemListElement" then
        match dGet fs "itemListElement" with
        | .arr items => ldItemsAux orc items
        | _ => []
      else []
    | _ => []

/-- The urls already recorded in the `seen` set: the truthy urls of the
products appended so far (only the url-bearing branch adds to `seen`). -/
def seenUrls (u : List PyDict) : List JVal :=
  (u.map (fun q => dGetD q "url" (.str ""))).filter (fun v => v.truthy)

/-- The duplicate-removal pass of `extract_product_info`: a product with
a truthy unseen url is kept; a product with a falsy url is kept when its
name is not already among the kept names; everything else is dropped. -/
def dedupAux (u : List PyDict) : List PyDict → List PyDict
  | [] => u
  | p :: rest =>
    let url := dGetD p "url" (.str "")
    if url.truthy && !((seenUrls u).any (fun x => JVal.pyEq x url)) then
      dedupAux (u ++ [p]) rest
    else if !url.truthy &&
        !((u.map (fun q => dGet q "name")).any (fun x => JVal.pyEq x (dGet p "name"))) then
      dedupAux (u ++ [p]) rest
    else
      dedupAux u rest

/-- Shallow embedding of `extract_product_info`
(src/services/depo_store.py, BeautifulSoup branch): the JSON-LD products,
then the first 50 candidate elements, deduplicated by url/name. -/
def extractProductInfo (orc : PyOracles) (scripts : List (Option JVal))
    (elems : List BSElem) : List PyDict :=
  let ld := (scripts.map (ldScript orc)).flatten
  let elemProds := (elems.take 50).filterMap (processElem orc)
  dedupAux [] (ld ++ elemProds)

/-! ## `src/services/depo_store.py` — `search_products` -/

/-- Injected environment for one `search_products` call: whether
playwright imported, the browser fetch's content, the HTTP fallback's
response text (`none` = `make_request` returned `None`), plus the
HTML-heuristic helpers abstracted at their call boundary:
`links` is `extract_product_links`, `details` is `fetch_product_details`
(`none` = the page fetch failed or no name resolved), and
`scripts`/`elems` are the soup's JSON-LD scripts and candidate product
elements feeding `extract_product_info`. -/
structure DepoEnv where
  orc : PyOracles
  hasPlaywright : Bool
  browserHtml : Option String
  httpText : Option String
  links : String → List String
  details : String → Option PyDict
  scripts : String → List (Option JVal)
  elems : String → List BSElem

/-- Result of one `search_products` call: the returned text, the
truncated product list that was formatted, the product list before the
final `products[:limit]`, and the upstream traffic counts (page-level
fetch attempts and per-link detail fetches). -/
structure DepoSearchOut where
  message : String
  emitted : List PyDict
  preTruncate : List PyDict
  fetchCalls : Nat
  detailCalls : Nat

/-- The `"Products may exist …"` message. -/
def depoMsgMayExist (query searchUrl : String) : String :=
  "Products may exist for \x27" ++ query ++ "\x27 but couldn\x27t be extracted automatically.\n\nDirect search URL: " ++ searchUrl ++ "\n\nPlease visit the link above to see results manually.\n\nNote: The website structure may have changed. You can also try:\n- More specific search terms\n- Using Latvian product names\n- Browsing categories instead"

/-- The `"No products found …"` message. -/
def depoMsgNone (query searchUrl : String) : String :=
  "No products found for \x27" ++ query ++ "\x27 on online.depo.lv.\n\nDirect search URL: " ++ searchUrl ++ "\n\nTry:\n- A different search term\n- Checking the website directly using the link above\n- Using more general terms or Latvian product names"

/-- The `"Error: Unable to search …"` message. -/
def depoMsgUnavailable (query : String) : String :=
  "Error: Unable to search online.depo.lv for \x27" ++ query ++ "\x27. The website may be temporarily unavailable or there may be a network issue."

/-- The per-product lines of the result formatting. -/
def depoFormatProduct (orc : PyOracles) (total : Nat) (iv : Nat × PyDict) : List String :=
  let i := iv.1 + 1
  let product := iv.2
  [toString i ++ ". " ++ orc.pyStr (dGetD product "name" (.str "Unknown Product")),
   "   Price: " ++ orc.pyStr (dGetD product "price" (.str "Price not available"))]
  ++ (if (dGet product "availability").truthy then
        ["   Availability: " ++ orc.pyStr (dGet product "availability")] else [])
  ++ (if (dGet product "description").truthy then
        ["   Description: " ++ orc.pyStr (dGet product "description")] else [])
  ++ (if (dGet product "url").truthy then
        ["   URL: " ++ orc.pyStr (dGet product "url")] else [])
  ++ (if i != total then [""] else [])

/-- The result formatting of `search_products` (on the already truncated
product list): header, numbered entries, the `(Showing …)` notice when
the page filled the limit, the trailing note, joined and stripped. -/
def depoFormatResults (orc : PyOracles) (query searchUrl : String) (lim : Int)
    (products : List PyDict) : String :=
  let lines := ["Search results for \x27" ++ query ++ "\x27 on online.depo.lv:", ""]
    ++ (products.enum.map (depoFormatProduct orc products.length)).flatten
    ++ (if (products.length : Int) == lim then
          ["", "(Showing " ++ toString lim ++ " results. Visit " ++ searchUrl ++ " for more results.)"]
        else [])
    ++ ["", "Note: For the most up-to-date information, visit online.depo.lv directly."]
  pyStrip (String.intercalate "\n" lines)

/-- The post-fetch phase of `search_products`: extract product links; if
any, fetch details for the first `lim` of them, otherwise fall back to
`extract_product_info`; an empty product list yields one of the two
advisory messages (depending on the indicator scan over the first 2000
lowercased characters); otherwise the list is truncated to `lim` and
formatted. -/
def searchProductsParse (env : DepoEnv) (query : String) (lim : Int)
    (searchUrl html : String) (fetchCalls : Nat) : DepoSearchOut :=
  let productLinks := env.links html
  let pl := pySliceTo lim productLinks
  let products :=
    if !productLinks.isEmpty then pl.filterMap env.details
    else extractProductInfo env.orc (env.scripts html) (env.elems html)
  let detailCalls := if !productLinks.isEmpty then pl.length else 0
  if products.isEmpty then
    let lower2000 : String := ⟨(pyLower html).data.take 2000⟩
    let hasInd := strHasSub "product" lower2000 || strHasSub "item" lower2000
      || strHasSub "catalog" lower2000 || strHasSub "search" lower2000
    if hasInd then ⟨depoMsgMayExist query searchUrl, [], [], fetchCalls, detailCalls⟩
    else ⟨depoMsgNone query searchUrl, [], [], fetchCalls, detailCalls⟩
  else
    let emitted := pySliceTo lim products
    ⟨depoFormatResults env.orc query searchUrl lim emitted, emitted, products,
      fetchCalls, detailCalls⟩

/-- The fetch phase of `search_products` with the limit already clamped:
try the browser when playwright is available, fall back to a plain HTTP
request when the browser produced nothing truthy, and fail with the
"unavailable" error when that also returns `None`. -/
def searchProductsCore (env : DepoEnv) (query : String) (lim : Int) : DepoSearchOut :=
  let searchUrl := DEPO_SEARCH_URL ++ "/" ++ env.orc.quote (pyStrip query)
  let html1 : Option String := if env.hasPlaywright then env.browserHtml else none
  let calls1 : Nat := if env.hasPlaywright then 1 else 0
  if optStrTruthy html1 then
    searchProductsParse env query lim searchUrl (html1.getD "") calls1
  else
    match env.httpText with
    | none => ⟨depoMsgUnavailable query, [], [], calls1 + 1, 0⟩
    | some text => searchProductsParse env query lim searchUrl text (calls1 + 1)

/-- Shallow embedding of `search_products` (src/services/depo_store.py):
an empty or whitespace-only query returns the error message with no
upstream traffic; otherwise the limit is clamped to `[1, 50]` (the code's
`limit = min(max(1, limit), 50)`, hoisted into this wrapper) and the
search runs. -/
def searchProducts (env : DepoEnv) (query : String) (limit : Int) : DepoSearchOut :=
  if pyStrip query == "" then
    ⟨"Error: Search query cannot be empty.", [], [], 0, 0⟩
  else
    searchProductsCore env query (min (max 1 limit) 50)

/-! ## `src/routers/chat.py` — the `POST /darel` endpoint -/

/-- Result of one `POST /darel` call: the returned text and the truncated
result list (`results[:limit]`) that was formatted. -/
structure DarelPostOut where
  message : String
  emitted : List JVal

/-- The per-product lines of the `POST /darel` formatting (`name`,
`price` and `url` fall back through Python `or`; the blank separator is
skipped after the last formatted entry, `min(limit, len(results))`).
Every result is a dict by construction of the compact loop, so the
`.get` calls are read off with `JVal.field`. -/
def darelPostLines (orc : PyOracles) (total : Int) (iv : Nat × JVal) : List String :=
  let i := iv.1 + 1
  let p := iv.2
  let name := pyOr (p.field "name") (.str "Unknown")
  let price := pyOr (p.field "price") (.str "N/A")
  let url := pyOr (p.field "url") (.str "")
  [toString i ++ ". " ++ orc.pyStr name, "   Price: " ++ orc.pyStr price]
  ++ (if url.truthy then ["   URL: " ++ orc.pyStr url] else [])
  ++ (if (i : Int) != total then [""] else [])

/-- Shallow embedding of the `POST /darel` route handler
(src/routers/chat.py): default limit 10, passed to `darel_search`
unmodified; empty results yield the "No products found." message,
otherwise `results[:limit]` (the requested limit, not clamped) is
formatted into the text response. -/
def darelPost (orc : PyOracles) (message : String) (limit : Option Int) (env : DarelEnv) :
    Except PyErr DarelPostOut := do
  let lim := limit.getD 10
  let results ← darelSearch message lim env
  if results.isEmpty then .ok ⟨"No products found.", []⟩
  else
    let emitted := pySliceTo lim results
    let total := min lim (results.length : Int)
    let lines := ["Darel search results:", ""]
      ++ (emitted.enum.map (darelPostLines orc total)).flatten
    .ok ⟨String.intercalate "\n" lines, emitted⟩

/-! ## `src/routers/chat.py` — the unified `GET /search` endpoint

The two per-source fetchers (`search_products_structured`, which the
router imports from `services.depo_store`, and `darel_search` run in the
executor) are injected as functions; the embedding records whether each
was invoked. -/

/-- Injected per-source fetchers for one `/search` call. -/
structure UnifiedEnv where
  depoFetch : String → Int → List PyDict
  darelFetch : String → Int → List PyDict

/-- Result of one `/search` call: the combined `results` array and how
many times each per-source fetcher was invoked. -/
structure UnifiedOut where
  results : List PyDict
  depoCalls : Nat
  darelCalls : Nat

/-- `it = dict(item); it["source"] = s`: copy the dict and set the
`source` key (overwriting it in place when present, appending otherwise). -/
def pySetKey (d : PyDict) (key : String) (v : JVal) : PyDict :=
  match d with
  | [] => [(key, v)]
  | (k, w) :: rest => if k == key then (k, v) :: rest else (k, w) :: pySetKey rest key v

/-- Tag every record of a source's result list with its source name. -/
def tagSource (s : String) (items : List PyDict) : List PyDict :=
  items.map (fun it => pySetKey it "source" (.str s))

/-- Shallow embedding of `unified_search` (src/routers/chat.py): the
source selector defaults to `both` when omitted or empty and is
lowercased; `depo`/`both` dispatches the depo fetcher, `darel`/`both` the
darel fetcher; the combined view is the selected source's list, or — for
every other selector value, including unrecognized ones — the
depo-tagged records followed by the darel-tagged records (with no
truncation of the combined list). -/
def unifiedSearch (q : String) (source : Option String) (limit : Option Int)
    (env : UnifiedEnv) : UnifiedOut :=
  let maxResults := limit.getD 10
  let base := match source with
    | none => "both"
    | some s => if s == "" then "both" else s
  let src := pyLower base
  let depoRes : Option (List PyDict) :=
    if src == "depo" || src == "both" then some (env.depoFetch q maxResults) else none
  let darelRes : Option (List PyDict) :=
    if src == "darel" || src == "both" then some (env.darelFetch q maxResults) else none
  let combined :=
    if src == "depo" then depoRes.getD []
    else if src == "darel" then darelRes.getD []
    else tagSource "depo" (depoRes.getD []) ++ tagSource "darel" (darelRes.getD [])
  ⟨combined, if depoRes.isSome then 1 else 0, if darelRes.isSome then 1 else 0⟩

/-! ## Source-A normalizer price resolution (`search_products_structured`)

Modelled from the spec: `search_products_structured` is imported by
`src/routers/chat.py` from `services.depo_store` but is not present in
the `src/services/depo_store.py` under `src/`; its price-resolution
policy is therefore modelled from the spec's words (§4.4): a product
carries a list of tier-keyed price entries; all entries are scanned for a
promotional-tier VAT-inclusive price first (first match wins across all
entries, preserving original order), then all entries are rescanned for a
standard-tier price, and failing both the "not available" sentinel is
emitted. -/

/-- Modelled from the spec: a pricing tier of a source-A price entry. -/
inductive PriceTier where
  | promo
  | standard
  deriving DecidableEq

/-- Modelled from the spec: one tier-keyed price entry of a source-A
product; the VAT-inclusive price is a display value and may be absent. -/
structure PriceEntry where
  tier : PriceTier
  vatPrice : Option String
  deriving DecidableEq

/-- Modelled from the spec: the sentinel emitted when no price resolves. -/
def PRICE_NOT_AVAILABLE : String := "not available"

/-- Modelled from the spec: one scan pass — the first entry of the given
tier that carries a VAT-inclusive price, in original order. -/
def scanTier (t : PriceTier) : List PriceEntry → Option String
  | [] => none
  | e :: rest =>
    if e.tier = t then
      match e.vatPrice with
      | some p => some p
      | none => scanTier t rest
    else scanTier t rest

/-- Modelled from the spec: the two-pass tier-priority price resolution
of the source-A normalizer — the promotional pass over all entries first,
the standard pass only when the promotional pass found nothing, the
sentinel when both passes fail. -/
def resolvePrice (entries : List PriceEntry) : String :=
  match scanTier .promo entries with
  | some p => p
  | none =>
    match scanTier .standard entries with
    | some p => p
    | none => PRICE_NOT_AVAILABLE

/-- Modelled from the spec: one source-A raw product as far as price
resolution is concerned — its name and its tier-keyed price entries. -/
structure RawProductA where
  name : String
  prices : List PriceEntry

/-- Modelled from the spec: the source-A normalizer as invoked by the
chat router — every raw product's record carries the resolved price. -/
def searchProductsStructured (_q : String) (_limit : Int) (raws : List RawProductA) :
    List PyDict :=
  raws.map (fun r => [("name", JVal.str r.name), ("price", JVal.str (resolvePrice r.prices))])

/-- The promotional-tier projection used to state first-match-wins. -/
def promoPrice (e : PriceEntry) : Option String :=
  if e.tier = .promo then e.vatPrice else none

/-- The standard-tier projection used to state first-match-wins. -/
def standardPrice (e : PriceEntry) : Option String :=
  if e.tier = .standard then e.vatPrice else none

/-! ## Concrete scenario environments -/

/-- A 2xx darel search response whose `products` array holds `n` minimal
product dicts. -/
def darelBodyN (n : Nat) : JVal :=
  .obj [("products", .arr (List.replicate n (.obj [("name", .str "x")])))]

/-- Upstream environment for the limit counterexample: HTTP 200 with 51
products. -/
def envDarel51 : DarelEnv := ⟨none, 200, some (darelBodyN 51)⟩

/-- Upstream environment showing the same pass-through at limit 60. -/
def envDarel60 : DarelEnv := ⟨none, 200, some (darelBodyN 60)⟩

/-- The compact record the darel normalizer builds for the minimal
product dict of `darelBodyN`. -/
def compactX : JVal :=
  .obj [("id_product", .null), ("name", .str "x"), ("price", .null), ("url", .null),
    ("reference", .null), ("manufacturer_name", .null), ("category_name", .null),
    ("thumbnail", .null)]

/-- The 51 compact records `darel_search` returns against `envDarel51`. -/
def darelResults51 : List JVal := List.replicate 51 compactX

/-- Per-source fetchers that return one record per requested result, so
the record count exposes the limit each fetcher was asked for. -/
def envUnifiedEcho : UnifiedEnv :=
  ⟨fun _ n => List.replicate n.toNat [("name", .str "d")],
   fun _ n => List.replicate n.toNat [("name", .str "r")]⟩

/-- Upstream environment for the empty-query counterexample. -/
def envDarelEmptyOk : DarelEnv := ⟨none, 200, some (.obj [("products", .arr [])])⟩

/-- A trivial oracle set for concrete depo environments. -/
def orcTrivial : PyOracles := ⟨fun _ => "", fun _ b => b, fun s => s, fun _ => none, fun _ => none⟩

/-- A concrete depo environment with no playwright and a failing HTTP
fallback. -/
def envDepoTrivial : DepoEnv :=
  ⟨orcTrivial, false, none, none, fun _ => [], fun _ => none, fun _ => [], fun _ => []⟩

/-- Per-source fetchers returning six records each. -/
def envUnified66 : UnifiedEnv :=
  ⟨fun _ _ => List.replicate 6 [("name", .str "d")],
   fun _ _ => List.replicate 6 [("name", .str "r")]⟩

/-- A concrete browser cookie for the cache scenarios. -/
def cookieW : Cookie := ⟨some "PHPSESSID", some "abc", some "darel.lv", some "/"⟩

/-- Per-source fetchers returning two records each, for the source
selector scenarios. -/
def envUnifiedC10 : UnifiedEnv :=
  ⟨fun _ _ => List.replicate 2 [("name", .str "d")],
   fun _ _ => List.replicate 2 [("name", .str "r")]⟩

/-- Upstream darel environment whose single product dict has no `name`
key. -/
def envDarelNoName : DarelEnv :=
  ⟨none, 200, some (.obj [("products", .arr [.obj [("id_product", .num 1)]])])⟩

/-- A candidate element whose name resolves from its `data-name`
attribute. -/
def elemNamed : BSElem :=
  ⟨some "Hammer 20cm", none, none, [], [], none, none, none, [], ""⟩

/-! ## Supporting lemmas -/

/-- One scan pass finds exactly the first entry of its tier carrying a
price, in original order. -/
theorem scanTier_eq_filterMap (t : PriceTier) (es : List PriceEntry) :
    scanTier t es = (es.filterMap (fun e => if e.tier = t then e.vatPrice else none)).head? := by
  induction es with
  | nil => rfl
  | cons e rest ih =>
    simp only [scanTier, List.filterMap_cons]
    by_cases h : e.tier = t
    · simp only [if_pos h]
      cases hv : e.vatPrice with
      | none => simpa using ih
      | some p => simp
    · simp only [if_neg h]
      exact ih

/-- Everything the duplicate-removal pass keeps was already a member of
its accumulator or of its input. -/
theorem mem_dedupAux (xs : List PyDict) : ∀ (u : List PyDict) (p : PyDict),
    p ∈ dedupAux u xs → p ∈ u ∨ p ∈ xs := by
  induction xs with
  | nil =>
    intro u p h
    exact .inl h
  | cons x rest ih =>
    intro u p h
    simp only [dedupAux] at h
    split at h
    · rcases ih _ _ h with hu | hr
      · rcases List.mem_append.mp hu with h1 | h2
        · exact .inl h1
        · right
          simp only [List.mem_singleton] at h2
          simp [h2]
      · right
        exact List.mem_cons_of_mem _ hr
    · split at h
      · rcases ih _ _ h with hu | hr
        · rcases List.mem_append.mp hu with h1 | h2
          · exact .inl h1
          · right
            simp only [List.mem_singleton] at h2
            simp [h2]
        · right
          exact List.mem_cons_of_mem _ hr
      · rcases ih _ _ h with hu | hr
        · exact .inl hu
        · right
          exact List.mem_cons_of_mem _ hr

/-- Every product kept by the JSON-LD item loop passed the
`if product.get('name'):` guard. -/
theorem ldItemsAux_name_truthy (orc : PyOracles) (items : List JVal) :
    ∀ p ∈ ldItemsAux orc items, (dGet p "name").truthy = true := by
  induction items with
  | nil =>
    intro p h
    simp [ldItemsAux] at h
  | cons item rest ih =>
    intro p h
    cases item with
    | obj ifs =>
      simp only [ldItemsAux] at h
      split at h
      · split at h
        · split at h
          · rcases List.mem_append.mp h with h1 | h2
            · split at h1
              · simp only [List.mem_singleton] at h1
                subst h1
                assumption
              · simp at h1
            · exact ih p h2
          · simp at h
        · exact ih p h
      · exact ih p h
    | null => exact ih p (by simpa [ldItemsAux] using h)
    | bool b => exact ih p (by simpa [ldItemsAux] using h)
    | num n => exact ih p (by simpa [ldItemsAux] using h)
    | str s => exact ih p (by simpa [ldItemsAux] using h)
    | arr xs => exact ih p (by simpa [ldItemsAux] using h)

/-- Every product contributed by one JSON-LD script has a truthy name. -/
theorem ldScript_name_truthy (orc : PyOracles) (script : Option JVal) :
    ∀ p ∈ ldScript orc script, (dGet p "name").truthy = true := by
  intro p h
  cases script with
  | none => simp [ldScript] at h
  | some data =>
    cases data with
    | obj fs =>
      simp only [ldScript] at h
      split at h
      · split at h
        · exact ldItemsAux_name_truthy orc _ p h
        · simp at h
      · simp at h
    | null => simp [ldScript] at h
    | bool b => simp [ldScript] at h
    | num n => simp [ldScript] at h
    | str s => simp [ldScript] at h
    | arr xs => simp [ldScript] at h

/-- Every product emitted by the element loop passed the
`if product.get('name'):` guard on its stripped name. -/
theorem processElem_name_truthy (orc : PyOracles) (e : BSElem) (p : PyDict)
    (h : processElem orc e = some p) : (dGet p "name").truthy = true := by
  simp only [processElem] at h
  split at h
  case isTrue hcond =>
    rw [Bool.and_eq_true] at hcond
    obtain ⟨h1, h2⟩ := hcond
    injection h with h'
    subst h'
    simp only [h1, if_true]
    simpa [dGet, jLookup, JVal.truthy] using h2
  case isFalse => cases h

/-! ## Claim theorems -/

/-- C1: the Source A normalizer (`search_products_structured`, modelled
from the spec because the function is absent from `src/`) resolves the
price by a two-pass tier-priority scan: the first promotional-tier
VAT-inclusive price across all entries in original order wins; failing
that, the first standard-tier price; failing that, the "not available"
sentinel.  In particular the payload
`[(standard, 10), (promo, 7)]` resolves to the promo price `7`. -/
theorem c1_two_pass_price_resolution :
    (∀ es : List PriceEntry,
      resolvePrice es =
        match (es.filterMap promoPrice).head? with
        | some p => p
        | none =>
          match (es.filterMap standardPrice).head? with
          | some p => p
          | none => PRICE_NOT_AVAILABLE) ∧
    ((searchProductsStructured "paint" 10
        [⟨"p1", [⟨.standard, some "10"⟩, ⟨.promo, some "7"⟩]⟩]).map
          (fun r => dGet r "price")) = [.str "7"] := by
  constructor
  · intro es
    have hp : (es.filterMap promoPrice) =
        es.filterMap (fun e => if e.tier = .promo then e.vatPrice else none) := rfl
    have hs : (es.filterMap standardPrice) =
        es.filterMap (fun e => if e.tier = .standard then e.vatPrice else none) := rfl
    rw [resolvePrice, scanTier_eq_filterMap, scanTier_eq_filterMap, hp, hs]
  · rfl

/-- C2: whenever the source-B search POST receives a non-2xx HTTP status,
`_darel_search_with_error` does not raise: it returns the empty result
list together with the advisory string naming the HTTP status, for every
query and every results-per-page value. -/
theorem c2_darel_non2xx (q : String) (rpp : Int) (env : DarelEnv)
    (h : is2xx env.postStatus = false) :
    (darelSearchWithError q rpp env).result =
      .ok ([], some ("Darel search failed with HTTP " ++ toString env.postStatus ++ ".")) := by
  simp only [darelSearchWithError, h, Bool.not_false, if_pos]

/-- C2 witness: HTTP 403 yields the empty list and the advisory message. -/
theorem c2_witness :
    (darelSearchWithError "hammer" 10 ⟨none, 403, none⟩).result =
      .ok ([], some "Darel search failed with HTTP 403.") := by
  have h := c2_darel_non2xx "hammer" 10 ⟨none, 403, none⟩ (by decide)
  simpa using h

/-- C3 counterexample: called with `limit = 51` against upstreams holding
51 products per source, the `GET /darel` endpoint returns 51 records, the
`POST /darel` endpoint formats 51 records, and the unified `/search`
endpoint returns 102 combined records (51 requested from each fetcher) —
the requested limit is never lowered to 50, contradicting the claim that
every exposed search operation clamps the limit to `[1, 50]`. -/
theorem c3_counterexample :
    (darelGet "paint" (some 51) envDarel51).map List.length = .ok 51 ∧
    (darelPost orcTrivial "paint" (some 51) envDarel51).map
      (fun o => o.emitted.length) = .ok 51 ∧
    (unifiedSearch "paint" none (some 51) envUnifiedEcho).results.length = 102 := by
  exact ⟨rfl, rfl, rfl⟩

/-- C3 amended: only depo's `search_products` clamps the result limit to
`[1, 50]` (its behaviour at limit `l` is its behaviour at
`min (max 1 l) 50`); the two darel endpoints forward the requested limit
(default 10) to the upstream POST unmodified and slice their results with
it unclamped, and the unified `/search` endpoint passes the requested
limit unclamped to each per-source fetcher and applies no truncation of
its own — so a request with a limit above 50 can return more than 50
records. -/
theorem c3_amended :
    (∀ (env : DepoEnv) (q : String) (l : Int),
      searchProducts env q l = searchProducts env q (min (max 1 l) 50)) ∧
    (∀ (q : String) (n : Int) (env : DarelEnv),
      (darelSearchWithError q n env).requests =
        [.get DAREL_BASE_URL, .post DAREL_SEARCH_URL (darelPostData q n)]) ∧
    (∀ (q : String) (n : Int) (env : DarelEnv) (results : List JVal),
      darelSearch q n env = .ok results →
        darelGet q (some n) env =
          .ok (if results.isEmpty then [] else pySliceTo n results)) ∧
    (∀ (orc : PyOracles) (q : String) (n : Int) (env : DarelEnv) (results : List JVal),
      darelSearch q n env = .ok results → results.isEmpty = false →
        (darelPost orc q (some n) env).map DarelPostOut.emitted =
          .ok (pySliceTo n results)) ∧
    (∀ (q : String) (limit : Option Int) (env : UnifiedEnv),
      unifiedSearch q none limit env =
        ⟨tagSource "depo" (env.depoFetch q (limit.getD 10)) ++
         tagSource "darel" (env.darelFetch q (limit.getD 10)), 1, 1⟩) := by
  refine ⟨?_, ?_, ?_, ?_, ?_⟩
  · intro env q l
    have h : min (max 1 (min (max 1 l) 50)) 50 = min (max 1 l) 50 := by omega
    rw [searchProducts, searchProducts, h]
  · intro q n env
    unfold darelSearchWithError
    split <;> [rfl; skip]
    split <;> rfl
  · intro q n env results h
    simp only [darelGet, bind, Except.bind, Option.getD, h]
    split <;> simp [*]
  · intro orc q n env results h hne
    simp only [darelPost, bind, Except.bind, Option.getD, h, hne]
    rfl
  · intro q limit env
    rfl

/-- C3 witness: at the requested limit 51 against 51 upstream products,
`GET /darel` and `POST /darel` both emit the 51-element slice. -/
theorem c3_witness :
    darelGet "paint" (some 51) envDarel51 = .ok (pySliceTo 51 darelResults51) ∧
    (darelPost orcTrivial "paint" (some 51) envDarel51).map DarelPostOut.emitted =
      .ok (pySliceTo 51 darelResults51) := by
  constructor
  · exact (c3_amended.2.2.1 "paint" 51 envDarel51 darelResults51 (by rfl)).trans
      (by rfl)
  · exact c3_amended.2.2.2.1 orcTrivial "paint" 51 envDarel51 darelResults51
      (by rfl) (by rfl)

/-- C4 counterexample: for the empty query, the source-B search still
issues its two upstream HTTP requests (the priming GET and the search
POST) — not zero, contradicting the claim that every search operation
short-circuits an empty query without any upstream call. -/
theorem c4_counterexample :
    (darelSearchWithError "" 10 envDarelEmptyOk).requests.length = 2 := by rfl

/-- C4 amended: depo's `search_products` short-circuits an empty or
whitespace-only query with the error message
"Error: Search query cannot be empty." and zero upstream calls (it does
surface an error string rather than an empty result); the darel search
path issues its priming GET and search POST regardless of the query. -/
theorem c4_amended (q : String) (h : pyStrip q = "") :
    (∀ (env : DepoEnv) (l : Int),
      (searchProducts env q l).message = "Error: Search query cannot be empty." ∧
      (searchProducts env q l).fetchCalls = 0 ∧
      (searchProducts env q l).detailCalls = 0) ∧
    (∀ (rpp : Int) (denv : DarelEnv),
      (darelSearchWithError q rpp denv).requests =
        [.get DAREL_BASE_URL, .post DAREL_SEARCH_URL (darelPostData q rpp)]) := by
  constructor
  · intro env l
    simp [searchProducts, h]
  · intro rpp denv
    unfold darelSearchWithError
    split <;> [rfl; skip]
    split <;> rfl

/-- C4 witness: the claim holds at the whitespace query `"   "`. -/
theorem c4_witness :
    (searchProducts envDepoTrivial "   " 5).message = "Error: Search query cannot be empty." ∧
    (darelSearchWithError "   " 5 envDarelEmptyOk).requests.length = 2 := by
  have h := c4_amended "   " (by decide)
  exact ⟨(h.1 envDepoTrivial 5).1, by rw [h.2 5 envDarelEmptyOk]; rfl⟩

/-- C6 counterexample: with both sources requested and `limit = 10`, six
depo records and six darel records come back as twelve combined records —
the flat combined list is not truncated to the requested limit. -/
theorem c6_counterexample :
    (unifiedSearch "hammer" none (some 10) envUnified66).results.length = 12 := by rfl

/-- C6 amended: when both sources are requested, the combined list is
source A's records followed by source B's records, each tagged with its
source, with no truncation applied to the combined list (each source is
merely asked for up to the requested limit). -/
theorem c6_amended (q : String) (limit : Option Int) (env : UnifiedEnv) :
    (unifiedSearch q none limit env).results =
      tagSource "depo" (env.depoFetch q (limit.getD 10)) ++
      tagSource "darel" (env.darelFetch q (limit.getD 10)) := by rfl

/-- C7 counterexample: a 2xx response whose body parses to the JSON
number `5` makes `execute_graphql_request` raise a `TypeError` (from
`"errors" in data` on a non-container) — neither a `GraphQLRequestError`
nor a returned payload, contradicting the claim that the function raises
`GraphQLRequestError` and only that error kind. -/
theorem c7_counterexample :
    executeGraphqlRequest "https://a.example/graphql" "query Q" [⟨200, some (.num 5)⟩] =
      (.pyError .typeError, 1) := by rfl

/-- C7 amended: for non-empty endpoint and query,
`execute_graphql_request` performs exactly one POST per call, converts a
non-2xx status and a non-JSON body into `GraphQLRequestError`, and — when
the parsed payload is a JSON object — raises `GraphQLRequestError`
exactly when the object has an `errors` key, returning the payload
otherwise; a 2xx payload that is not a container is instead handled by
Python membership semantics and can raise `TypeError`. -/
theorem c7_amended (endpoint query : String) (r : GqlResponse) (rest : List GqlResponse)
    (he : pyStrip endpoint ≠ "") (hq : pyStrip query ≠ "") :
    (executeGraphqlRequest endpoint query (r :: rest)).2 = 1 ∧
    (is2xx r.status = false →
      (executeGraphqlRequest endpoint query (r :: rest)).1 =
        .gqlError ("GraphQL request failed with status " ++ toString r.status ++ ".")) ∧
    (is2xx r.status = true → r.jsonBody = none →
      (executeGraphqlRequest endpoint query (r :: rest)).1 =
        .gqlError "GraphQL response was not valid JSON.") ∧
    (∀ fs, is2xx r.status = true → r.jsonBody = some (.obj fs) →
      (executeGraphqlRequest endpoint query (r :: rest)).1 =
        (if hasKey fs "errors" then .gqlError "GraphQL response contained errors."
         else .payload (.obj fs))) := by
  have he' : (pyStrip endpoint == "") = false := beq_eq_false_iff_ne.mpr he
  have hq' : (pyStrip query == "") = false := beq_eq_false_iff_ne.mpr hq
  refine ⟨?_, ?_, ?_, ?_⟩
  · simp only [executeGraphqlRequest, he', hq', Bool.false_eq_true, if_false]
    split <;> (try split) <;> (try split) <;> rfl
  · intro h2
    simp [executeGraphqlRequest, he', hq', h2]
  · intro h2 hb
    simp [executeGraphqlRequest, he', hq', h2, hb]
  · intro fs h2 hb
    simp [executeGraphqlRequest, he', hq', h2, hb, pyIn]
    split <;> simp_all [hasKey]

/-- C7 witness: a 2xx object payload without an `errors` key is returned
as-is after a single POST. -/
theorem c7_witness :
    (executeGraphqlRequest "https://a.example/graphql" "query Q2"
        [⟨200, some (.obj [("data", .null)])⟩]).1 = .payload (.obj [("data", .null)]) ∧
    (executeGraphqlRequest "https://a.example/graphql" "query Q2"
        [⟨200, some (.obj [("data", .null)])⟩]).2 = 1 := by
  have h := c7_amended "https://a.example/graphql" "query Q2"
    ⟨200, some (.obj [("data", .null)])⟩ [] (by decide) (by decide)
  refine ⟨?_, h.1⟩
  rw [h.2.2.2 [("data", .null)] rfl rfl]
  rfl

/-- C8: the session credential cache is a two-state machine with a fixed
30-minute TTL — a call finding a cached credential whose expiry is still
in the future returns it with zero new acquisitions and an unchanged
cache; any call finding the cache empty or expired performs exactly one
acquisition, and a successful one stores the new cookies with expiry
`now + 1800`. -/
theorem c8_cookie_cache (cache : CookieCache) (now : Nat) (acq : Acquisition) :
    DAREL_COOKIE_TTL_SECONDS = 1800 ∧
    (∀ cs, cache.cookies = some cs → cs ≠ [] → now < cache.expiresAt →
      getDarelCookies cache now acq = ⟨some cs, cache, 0⟩) ∧
    (cacheHit cache now = false → (getDarelCookies cache now acq).acquisitions = 1) ∧
    (∀ cs, cacheHit cache now = false → acq = .got cs → cs ≠ [] →
      getDarelCookies cache now acq =
        ⟨some cs, ⟨some cs, now + DAREL_COOKIE_TTL_SECONDS⟩, 1⟩) := by
  refine ⟨rfl, ?_, ?_, ?_⟩
  · intro cs hcs hne hexp
    have hhit : cacheHit cache now = true := by
      unfold cacheHit
      rw [hcs]
      cases cs with
      | nil => exact absurd rfl hne
      | cons c rest => simpa using hexp
    simp [getDarelCookies, hhit, hcs]
  · intro hmiss
    unfold getDarelCookies
    rw [hmiss]
    cases acq with
    | importError => rfl
    | browserError => rfl
    | got cs => simp only [Bool.false_eq_true, if_false]; split <;> rfl
  · intro cs hmiss hacq hne
    subst hacq
    have : cs.isEmpty = false := by
      cases cs with
      | nil => exact absurd rfl hne
      | cons c rest => rfl
    simp [getDarelCookies, hmiss, this]

/-- C8 witness: acquisition succeeding at t=0 stores expiry 1800; at
t=1799 the cached value is served with zero acquisitions; at t=1801 a
new acquisition is triggered. -/
theorem c8_witness :
    getDarelCookies ⟨none, 0⟩ 0 (.got [cookieW]) =
      ⟨some [cookieW], ⟨some [cookieW], 1800⟩, 1⟩ ∧
    getDarelCookies ⟨some [cookieW], 1800⟩ 1799 .importError =
      ⟨some [cookieW], ⟨some [cookieW], 1800⟩, 0⟩ ∧
    (getDarelCookies ⟨some [cookieW], 1800⟩ 1801 (.got [cookieW])).acquisitions = 1 := by
  refine ⟨?_, ?_, ?_⟩
  · exact (c8_cookie_cache ⟨none, 0⟩ 0 (.got [cookieW])).2.2.2 [cookieW] (by decide) rfl
      (by decide)
  · exact (c8_cookie_cache ⟨some [cookieW], 1800⟩ 1799 .importError).2.1 [cookieW] rfl
      (by decide) (by decide)
  · exact (c8_cookie_cache ⟨some [cookieW], 1800⟩ 1801 (.got [cookieW])).2.2.1 (by decide)

/-- C9: every failing acquisition path of `_get_darel_cookies` (the
playwright import failing, the browser raising, or an empty cookie list)
returns `None` without touching the cache; and whenever the cache does
change, it changes as a whole unit — to a non-empty cookie list together
with the fresh expiry `now + 1800`. -/
theorem c9_failing_acquisition (cache : CookieCache) (now : Nat) (acq : Acquisition) :
    (acq.fails = true → cacheHit cache now = false →
      getDarelCookies cache now acq = ⟨none, cache, 1⟩) ∧
    ((getDarelCookies cache now acq).cache ≠ cache →
      ∃ cs, cs ≠ [] ∧ acq = .got cs ∧
        (getDarelCookies cache now acq).cache = ⟨some cs, now + DAREL_COOKIE_TTL_SECONDS⟩ ∧
        (getDarelCookies cache now acq).result = some cs) := by
  constructor
  · intro hfail hmiss
    unfold getDarelCookies
    rw [hmiss]
    simp only [Bool.false_eq_true, if_false]
    cases acq with
    | importError => rfl
    | browserError => rfl
    | got cs =>
      have : cs.isEmpty = true := by simpa [Acquisition.fails] using hfail
      simp [this]
  · intro hch
    unfold getDarelCookies at *
    by_cases hhit : cacheHit cache now = true
    · rw [hhit] at hch
      simp at hch
    · rw [Bool.not_eq_true] at hhit
      rw [hhit] at hch ⊢
      simp only [Bool.false_eq_true, if_false] at hch ⊢
      cases acq with
      | importError => simp at hch
      | browserError => simp at hch
      | got cs =>
        by_cases hemp : cs.isEmpty = true
        · simp [hemp] at hch
        · rw [Bool.not_eq_true] at hemp
          refine ⟨cs, ?_, rfl, ?_, ?_⟩
          · intro hnil
            subst hnil
            simp at hemp
          · simp [hemp]
          · simp [hemp]

/-- C9 witness: a browser failure at t=5 against the pristine cache
returns `None` and leaves the cache exactly as it was. -/
theorem c9_witness :
    getDarelCookies ⟨none, 0⟩ 5 .browserError = ⟨none, ⟨none, 0⟩, 1⟩ := by
  exact (c9_failing_acquisition ⟨none, 0⟩ 5 .browserError).1 rfl rfl

/-- C10 counterexample: the empty-string source value — whose lowercase
form `""` is not `depo`, `darel` or `both` — does not short-circuit to
`{"results": []}`: Python's `source or "both"` treats it as omitted, both
fetchers are dispatched and their tagged records are returned. -/
theorem c10_counterexample :
    (unifiedSearch "hammer" (some "") (some 5) envUnifiedC10).depoCalls = 1 ∧
    (unifiedSearch "hammer" (some "") (some 5) envUnifiedC10).results.length = 4 := by
  exact ⟨rfl, rfl⟩

/-- C10 amended: the unified `/search` endpoint compares its source
parameter case-insensitively (all dispatch decisions depend only on the
lowercased value); an omitted or empty source defaults to querying both
sources; and every non-empty source value whose lowercase form is not
`depo`, `darel` or `both` yields `{"results": []}` with no upstream
dispatch. -/
theorem c10_amended (q : String) (limit : Option Int) (env : UnifiedEnv) :
    (∀ s : String, s ≠ "" → pyLower s ∉ (["depo", "darel", "both"] : List String) →
      unifiedSearch q (some s) limit env = ⟨[], 0, 0⟩) ∧
    (unifiedSearch q (some "") limit env = unifiedSearch q none limit env) ∧
    ((unifiedSearch q none limit env).depoCalls = 1 ∧
     (unifiedSearch q none limit env).darelCalls = 1) ∧
    (∀ s : String, pyLower s = "depo" →
      unifiedSearch q (some s) limit env = ⟨env.depoFetch q (limit.getD 10), 1, 0⟩) ∧
    (∀ s : String, pyLower s = "darel" →
      unifiedSearch q (some s) limit env = ⟨env.darelFetch q (limit.getD 10), 0, 1⟩) ∧
    (∀ s : String, pyLower s = "both" →
      (unifiedSearch q (some s) limit env).depoCalls = 1 ∧
      (unifiedSearch q (some s) limit env).darelCalls = 1) := by
  have hlow : ∀ s : String, s = "" → pyLower s = "" := by
    intro s hs
    subst hs
    rfl
  refine ⟨?_, by rfl, ⟨rfl, rfl⟩, ?_, ?_, ?_⟩
  · intro s hne hnotin
    have h1 : (s == "") = false := beq_eq_false_iff_ne.mpr hne
    have hd : (pyLower s == "depo") = false := by
      refine beq_eq_false_iff_ne.mpr (fun h => hnotin ?_)
      simp [h]
    have hr : (pyLower s == "darel") = false := by
      refine beq_eq_false_iff_ne.mpr (fun h => hnotin ?_)
      simp [h]
    have hb : (pyLower s == "both") = false := by
      refine beq_eq_false_iff_ne.mpr (fun h => hnotin ?_)
      simp [h]
    simp [unifiedSearch, h1, hd, hr, hb, tagSource]
  · intro s hs
    have hne : s ≠ "" := by
      intro h
      rw [hlow s h] at hs
      exact absurd hs (by decide)
    have h1 : (s == "") = false := beq_eq_false_iff_ne.mpr hne
    have hd : (pyLower s == "depo") = true := by simp [hs]
    have hr : (pyLower s == "darel") = false := by simp [hs]
    have hb : (pyLower s == "both") = false := by simp [hs]
    simp [unifiedSearch, h1, hd, hr, hb]
  · intro s hs
    have hne : s ≠ "" := by
      intro h
      rw [hlow s h] at hs
      exact absurd hs (by decide)
    have h1 : (s == "") = false := beq_eq_false_iff_ne.mpr hne
    have hd : (pyLower s == "depo") = false := by simp [hs]
    have hr : (pyLower s == "darel") = true := by simp [hs]
    have hb : (pyLower s == "both") = false := by simp [hs]
    simp [unifiedSearch, h1, hd, hr, hb]
  · intro s hs
    have hne : s ≠ "" := by
      intro h
      rw [hlow s h] at hs
      exact absurd hs (by decide)
    have h1 : (s == "") = false := beq_eq_false_iff_ne.mpr hne
    have hd : (pyLower s == "depo") = false := by simp [hs]
    have hr : (pyLower s == "darel") = false := by simp [hs]
    have hb : (pyLower s == "both") = true := by simp [hs]
    constructor <;> simp [unifiedSearch, h1, hd, hr, hb]

/-- C10 witness: `source=ebay` yields empty results with no dispatch, and
`source=DEPO` (uppercase) dispatches exactly the depo fetcher. -/
theorem c10_witness :
    unifiedSearch "hammer" (some "ebay") (some 5) envUnifiedC10 = ⟨[], 0, 0⟩ ∧
    unifiedSearch "hammer" (some "DEPO") (some 5) envUnifiedC10 =
      ⟨List.replicate 2 [("name", .str "d")], 1, 0⟩ := by
  constructor
  · exact (c10_amended "hammer" (some 5) envUnifiedC10).1 "ebay" (by decide) (by decide)
  · exact (c10_amended "hammer" (some 5) envUnifiedC10).2.2.2.1 "DEPO" (by decide)

/-- C5 counterexample: the source-B normalizer emits a record with a
null `name` for a product dict that has no name field — the record is
present in the output rather than dropped. -/
theorem c5_counterexample :
    (darelSearchWithError "screws" 10 envDarelNoName).result =
      .ok ([.obj [("id_product", .num 1), ("name", .null), ("price", .null),
        ("url", .null), ("reference", .null), ("manufacturer_name", .null),
        ("category_name", .null), ("thumbnail", .null)]], none) := by rfl

/-- C5 amended: depo's normalizer does drop nameless records — every
record emitted by `extract_product_info` has a truthy (non-empty) name —
but the darel normalizer copies the upstream `name` field verbatim into
the compact record and never drops a product dict for lacking one (the
compact list keeps one record per product dict). -/
theorem c5_amended :
    (∀ (orc : PyOracles) (scripts : List (Option JVal)) (elems : List BSElem)
      (p : PyDict), p ∈ extractProductInfo orc scripts elems →
        (dGet p "name").truthy = true) ∧
    (∀ (fs : PyDict) (c : JVal), darelCompact fs = .ok c →
      c.field "name" = dGet fs "name") ∧
    (∀ (ps cs : List JVal), (∀ p ∈ ps, ∃ gs, p = JVal.obj gs) →
      darelCompactList ps = .ok cs → cs.length = ps.length) := by
  refine ⟨?_, ?_, ?_⟩
  · intro orc scripts elems p hmem
    simp only [extractProductInfo] at hmem
    rcases mem_dedupAux _ _ _ hmem with h0 | h
    · simp at h0
    · rcases List.mem_append.mp h with hld | hel
      · rw [List.mem_flatten] at hld
        obtain ⟨l, hl, hpl⟩ := hld
        rw [List.mem_map] at hl
        obtain ⟨script, _, rfl⟩ := hl
        exact ldScript_name_truthy orc script p hpl
      · obtain ⟨e, _, hpe⟩ := List.mem_filterMap.mp hel
        exact processElem_name_truthy orc e p hpe
  · intro fs c h
    simp only [darelCompact, bind, Except.bind] at h
    cases h1 : (pyOr (dGet fs "cover") (JVal.obj [])).pyGet "bySize" with
    | error e =>
      rw [h1] at h
      cases h
    | ok x =>
      rw [h1] at h
      dsimp only at h
      cases h2 : darelThumb (pyOr (dGet fs "cover") (JVal.obj []))
          (pyOr x (JVal.obj [])) with
      | error e =>
        rw [h2] at h
        cases h
      | ok t =>
        rw [h2] at h
        dsimp only at h
        cases h
        rfl
  · intro ps
    induction ps with
    | nil =>
      intro cs hobj hlist
      cases hlist
      rfl
    | cons p rest ih =>
      intro cs hobj hlist
      obtain ⟨gs, rfl⟩ := hobj p (List.mem_cons_self p rest)
      simp only [darelCompactList, bind, Except.bind] at hlist
      cases h1 : darelCompact gs with
      | error e =>
        rw [h1] at hlist
        cases hlist
      | ok c =>
        rw [h1] at hlist
        cases h2 : darelCompactList rest with
        | error e =>
          rw [h2] at hlist
          cases hlist
        | ok r =>
          rw [h2] at hlist
          cases hlist
          have := ih r (fun q hq => hobj q (List.mem_cons_of_mem _ hq)) h2
          simp [this]

/-- C5 witness: a concrete element with a data-name attribute survives
depo extraction with its non-empty name, and a concrete darel product
dict's name passes through the compact record verbatim. -/
theorem c5_witness :
    (dGet [("name", .str "Hammer 20cm"), ("price", .str "Price not available")]
      "name").truthy = true ∧
    JVal.field (.obj [("id_product", .null), ("name", .str "saw"), ("price", .null),
      ("url", .null), ("reference", .null), ("manufacturer_name", .null),
      ("category_name", .null), ("thumbnail", .null)]) "name" = .str "saw" := by
  constructor
  · exact c5_amended.1 orcTrivial [] [elemNamed]
      [("name", .str "Hammer 20cm"), ("price", .str "Price not available")] (.head _)
  · exact c5_amended.2.1 [("name", .str "saw")] _ rfl

end Hephix
